import Mathlib

/-!
# Photo Upscaler web client — progress synchronization layer

A shallow embedding of the job-progress code of the photo-upscaler web
client (`src/upscaler/web/app.js`, `components/ProgressTracker.js`,
`components/ComparisonView.js`), together with proofs of the stated
progress, deduplication, polling and reconnection properties.

Modelling conventions:
* JavaScript numbers are modelled as `ℚ` (exact rational arithmetic);
  timestamps in milliseconds are `ℕ`.
* The JavaScript falsy-default idiom `x || d` is modelled by explicit
  functions on `Option` (`undefined`, `0`, and `""` are falsy).
* Asynchronous loops (`setTimeout`-driven polling) are modelled as
  functions over an explicit list of fetch outcomes, recording the
  delay scheduled before each fetch; a loop that stops scheduling is a
  state whose `nextDelay` is `none`.
* DOM event dispatches and toasts are recorded as explicit effect lists.
-/

/-- JavaScript `x || d` for numeric fields: a missing field and `0` are
falsy and replaced by the default. -/
def jsOrNat : Option ℕ → ℕ → ℕ
  | none, d => d
  | some 0, d => d
  | some (n + 1), _ => n + 1

/-- JavaScript `x || d` for string fields: a missing field and `""` are
falsy and replaced by the default. -/
def jsOrStr : Option String → String → String
  | none, d => d
  | some "", d => d
  | some s, _ => s

/-- JavaScript `Math.round`: round half toward positive infinity. -/
def jsRound (q : ℚ) : ℤ := ⌊q + 1 / 2⌋

/-- JavaScript `Number.toFixed(1)` for the nonnegative values that occur
in the download labels. -/
def jsToFixed1 (q : ℚ) : String :=
  toString (jsRound (q * 10) / 10) ++ "." ++ toString (jsRound (q * 10) % 10)

/-- The progress events arriving on the `/ws/progress` channel:
`data.type` together with the kind-specific fields each handler reads. -/
inductive WSEvent where
  | tile_progress (tiles_done tiles_total pass_num total_passes : Option ℕ)
  | model_loading (model_id : Option String)
  | model_loaded
  | comparison_model_start (model_id : Option String)
  | comparison_model_done (model_id : Option String) (success : Bool)
  | batch_progress (completed total : Option ℕ) (current_file : Option String)
  | download_progress (downloaded total : Option ℕ)
  | image_complete
  | image_error (error : Option String)
  deriving DecidableEq

/-- Side effects the client code performs besides mutating component
state: HTTP requests, toast messages and window event dispatches. -/
inductive Effect where
  | httpPost (url : String)
  | toast (msg kind : String)
  | dispatchEvent (name : String)
  deriving DecidableEq

namespace ProgressTracker

/-- Component state of `progressTracker()` in ProgressTracker.js. -/
structure TrackerState where
  progressPercent : ℤ
  progressLabel : String
  startTime : ℕ
  deriving DecidableEq

/-- State after `init()`: percent 0, label `Waiting...`, and
`startTime = Date.now()` (the `now` argument). -/
def initState (now : ℕ) : TrackerState :=
  { progressPercent := 0, progressLabel := "Waiting...", startTime := now }

/-- Lines 31-34 of ProgressTracker.js: the tile label, prefixed with the
pass index when `totalPasses > 1`. -/
def tileBaseLabel (done total passNum totalPasses : ℕ) : String :=
  let l := "Tiles: " ++ toString done ++ "/" ++ toString total
  if 1 < totalPasses then
    "Pass " ++ toString passNum ++ "/" ++ toString totalPasses ++ " — " ++ l
  else l

/-- Lines 39-41 of ProgressTracker.js: the projected remaining seconds,
`Math.ceil((total - done) / (done / elapsed))`. -/
def tileEta (done total : ℕ) (elapsed : ℚ) : ℤ :=
  ⌈((total : ℚ) - (done : ℚ)) / ((done : ℚ) / elapsed)⌉

/-- `handleWSEvent` of `progressTracker()` (ProgressTracker.js lines
22-85).  `now` is the value of `Date.now()` during the call.  Event
kinds without a branch (`comparison_model_done`, `image_error`) leave
the state unchanged. -/
def handleWSEvent (now : ℕ) (s : TrackerState) : WSEvent → TrackerState
  | .tile_progress td tt pn tp =>
      let done := jsOrNat td 0
      let total := jsOrNat tt 1
      let elapsed : ℚ := ((now : ℚ) - (s.startTime : ℚ)) / 1000
      let base := tileBaseLabel done total (jsOrNat pn 1) (jsOrNat tp 1)
      { s with
        progressPercent := jsRound ((done : ℚ) / (total : ℚ) * 100),
        progressLabel :=
          if 0 < done ∧ 2 < elapsed then
            base ++ " — ~" ++ toString (tileEta done total elapsed) ++ "s remaining"
          else base }
  | .model_loading mid =>
      { progressPercent := 0,
        progressLabel := "Loading model: " ++ jsOrStr mid "" ++ "...",
        startTime := now }
  | .model_loaded =>
      { s with progressLabel := "Model loaded, processing..." }
  | .comparison_model_start mid =>
      { progressPercent := 0,
        progressLabel := "Processing: " ++ jsOrStr mid "" ++ "...",
        startTime := now }
  | .comparison_model_done _ _ => s
  | .batch_progress c t cf =>
      let completed := jsOrNat c 0
      let total := jsOrNat t 1
      { s with
        progressPercent := jsRound ((completed : ℚ) / (total : ℚ) * 100),
        progressLabel := "Batch: " ++ toString completed ++ "/" ++ toString total
          ++ " images — " ++ jsOrStr cf "" }
  | .download_progress d t =>
      let downloaded := jsOrNat d 0
      let total := jsOrNat t 1
      { s with
        progressPercent :=
          if 0 < total then jsRound ((downloaded : ℚ) / (total : ℚ) * 100) else 0,
        progressLabel := "Downloading: " ++ jsToFixed1 ((downloaded : ℚ) / 1024 / 1024)
          ++ "/" ++ jsToFixed1 ((total : ℚ) / 1024 / 1024) ++ " MB" }
  | .image_complete =>
      { s with progressPercent := 100, progressLabel := "Complete!" }
  | .image_error _ => s

/-- Applying a sequence of timestamped events to the tracker. -/
def runEvents : TrackerState → List (ℕ × WSEvent) → TrackerState
  | s, [] => s
  | s, (t, e) :: rest => runEvents (handleWSEvent t s e) rest

/-- The abstract job status of the specification. -/
inductive JobStatus where
  | pending
  | running
  | completed
  | failed
  deriving DecidableEq

/-- The specification `ProgressState.status`, read off the tracker
display: the only rendering of a completed job is the
`image_complete` branch (label `Complete!`), the initial label
`Waiting...` is the pending state, and every other label is produced by
an in-progress event.  The tracker has no branch rendering a failed
job. -/
def trackerStatus (s : TrackerState) : JobStatus :=
  if s.progressLabel = "Complete!" then .completed
  else if s.progressLabel = "Waiting..." then .pending
  else .running

end ProgressTracker

namespace BatchPanel

/-- One element of `data.results` in a `/api/jobs/:id` snapshot, as read
by `pollJob` (fields `completed`, `skipped`, `failed`). -/
structure BatchResult where
  completed : ℕ
  skipped : ℕ
  failed : ℕ
  deriving DecidableEq

/-- A parsed `/api/jobs/:id` response body. -/
structure JobSnapshot where
  status : String
  results : List BatchResult
  error : Option String
  deriving DecidableEq

/-- Outcome of one fetch inside the poll loop: a network/parse failure
(the `catch` branch) or a parsed snapshot. -/
inductive FetchOutcome where
  | fail
  | ok (snap : JobSnapshot)
  deriving DecidableEq

/-- The state owned by `pollJob` and its surrounding `batchPanel()`
component: the `batchRunning` flag, the `batchStatus` string, the toasts
dispatched so far, and — modelling the `setTimeout` chain — the delay of
the next scheduled poll (`none` once the loop has stopped scheduling). -/
structure BatchPollState where
  batchRunning : Bool
  batchStatus : String
  toasts : List String
  nextDelay : Option ℕ
  deriving DecidableEq

/-- One resolution of the `poll` closure in `pollJob` (ProgressTracker.js
lines 132-164): a `completed` snapshot formats the summary, toasts and
stops; a `failed` snapshot records the error and stops; any other
snapshot reschedules after 2000 ms; a fetch failure reschedules after
3000 ms. -/
def pollJobStep (s : BatchPollState) : FetchOutcome → BatchPollState
  | .fail => { s with nextDelay := some 3000 }
  | .ok snap =>
      if snap.status = "completed" then
        { s with
          batchRunning := false,
          batchStatus :=
            match snap.results.head? with
            | some r => "Complete: " ++ toString r.completed ++ " processed, "
                ++ toString r.skipped ++ " skipped, " ++ toString r.failed ++ " failed"
            | none => "Batch complete",
          toasts := s.toasts ++ ["Batch processing complete"],
          nextDelay := none }
      else if snap.status = "failed" then
        { s with
          batchRunning := false,
          batchStatus := "Failed: " ++ jsOrStr snap.error "Unknown error",
          nextDelay := none }
      else { s with nextDelay := some 2000 }

/-- Running the poll loop against a list of prepared fetch outcomes.
Returns the number of fetches issued, the delay scheduled before each
issued fetch, and the final state.  No fetch is issued once `nextDelay`
is `none` (the loop stopped). -/
def pollJobRun (s : BatchPollState) : List FetchOutcome → ℕ × List ℕ × BatchPollState
  | [] => (0, [], s)
  | o :: rest =>
      match s.nextDelay with
      | none => (0, [], s)
      | some d =>
          let t := pollJobRun (pollJobStep s o) rest
          (t.1 + 1, d :: t.2.1, t.2.2)

/-- The poll-loop state right after a successful `startBatch`:
`batchRunning = true`, empty status, and the initial
`setTimeout(poll, 1000)`. -/
def initBatchPoll : BatchPollState :=
  { batchRunning := true, batchStatus := "", toasts := [], nextDelay := some 1000 }

/-- The poll-loop state after `n` consecutive fetch failures from the
initial state. -/
def iterateFailBatch : ℕ → BatchPollState
  | 0 => initBatchPoll
  | n + 1 => pollJobStep (iterateFailBatch n) .fail

/-- Fields of `batchPanel()` read by `startBatch` (ProgressTracker.js
lines 90-130). -/
structure BatchPanelState where
  batchInputDir : String
  batchOutputDir : String
  batchModel : String
  batchRunning : Bool
  batchStatus : String
  deriving DecidableEq

/-- The synchronous prefix of `startBatch` up to the `fetch` call
(ProgressTracker.js lines 102-119): the guard at line 103 returns with
no state change and no effect when the input directory or the model is
missing; otherwise the running flag is set, the status cleared and the
batch request issued. -/
def startBatch (s : BatchPanelState) : BatchPanelState × List Effect :=
  if s.batchInputDir = "" ∨ s.batchModel = "" then (s, [])
  else ({ s with batchRunning := true, batchStatus := "" },
        [Effect.httpPost "/api/upscale/batch"])

end BatchPanel

namespace App

/-- Fields of `app()` read by the submission and comparison flows
(app.js lines 27-60). -/
structure AppState where
  uploadedFile : Option String
  selectedModel : String
  isProcessing : Bool
  resultUrl : Option String
  compareModels : List String
  isComparing : Bool
  comparisonId : Option String
  deriving DecidableEq

/-- The synchronous prefix of `startUpscale` up to the `fetch` call
(app.js lines 131-141): the guard at line 132 returns with no state
change and no effect when no file is uploaded or no model selected. -/
def startUpscale (s : AppState) : AppState × List Effect :=
  if s.uploadedFile = none ∨ s.selectedModel = "" then (s, [])
  else ({ s with isProcessing := true, resultUrl := none },
        [Effect.httpPost "/api/upscale"])

/-- The synchronous prefix of `startComparison` up to the `fetch` call
(app.js lines 160-169): the guard at line 161 returns with no state
change and no effect when no file is uploaded or no model is selected
for comparison. -/
def startComparison (s : AppState) : AppState × List Effect :=
  if s.uploadedFile = none ∨ s.compareModels.length = 0 then (s, [])
  else ({ s with isComparing := true }, [Effect.httpPost "/api/compare"])

/-- One element of `data.results` in a `/api/compare/:id` snapshot, as
read by `pollComparison`. -/
structure CompResult where
  model_id : String
  image_id : Option String
  duration_seconds : ℚ
  success : Bool
  error : Option String
  deriving DecidableEq

/-- The detail of a dispatched `comparison-result` event (app.js lines
209-218). -/
structure ForwardedResult where
  modelId : String
  imageUrl : Option String
  duration : ℚ
  success : Bool
  error : Option String
  deriving DecidableEq

/-- `result.image_id ? ... : null` — a missing or empty id yields no
URL. -/
def imageUrlOf : Option String → Option String
  | none => none
  | some "" => none
  | some i => some ("/api/images/" ++ i)

/-- Building the `comparison-result` detail from a poll result. -/
def mkForwarded (r : CompResult) : ForwardedResult :=
  { modelId := r.model_id,
    imageUrl := imageUrlOf r.image_id,
    duration := r.duration_seconds,
    success := r.success,
    error := r.error }

/-- The `for (const result of data.results)` loop of `pollComparison`
(app.js lines 206-220): walk the snapshot in order; a result whose id is
already in `seen` is skipped, a new id is added to `seen` and its
`comparison-result` event dispatched. -/
def processResults : List String → List CompResult → List String × List ForwardedResult
  | seen, [] => (seen, [])
  | seen, r :: rest =>
      if r.model_id ∈ seen then processResults seen rest
      else ((processResults (r.model_id :: seen) rest).1,
            mkForwarded r :: (processResults (r.model_id :: seen) rest).2)

/-- The state of one `pollComparison` loop together with the
notifications the consumer has observed: the `seen` set (as a
duplicate-free list), the dispatched `comparison-result` events, the
`comparison-model-done` events dispatched by the push path, the number
of completion toasts, the `isComparing` flag, and the delay of the next
scheduled poll (`none` once the loop stopped). -/
structure CompState where
  seen : List String
  forwarded : List ForwardedResult
  modelDone : List String
  completeToasts : ℕ
  isComparing : Bool
  nextDelay : Option ℕ
  deriving DecidableEq

/-- An input to the combined push/poll system for one comparison job: a
push frame reporting a model result, or the outcome of one poll fetch. -/
inductive CompInput where
  | push (modelId : String) (success : Bool)
  | pollFail
  | pollOk (results : List CompResult)
  deriving DecidableEq

/-- One transition of the comparison job state.
* `push`: app.js lines 112-114 — `handleWSEvent` dispatches a
  `comparison-model-done` event for every successful push frame; it does
  not consult the `seen` set and dispatches no `comparison-result`.
* `pollFail`: the `catch` branch of `poll` — retry after 2000 ms.
* `pollOk`: the body of `poll` (app.js lines 203-227) — dedup through
  `seen`, then either reschedule after 1500 ms or, once
  `seen.size ≥ expectedCount`, clear `isComparing`, toast completion and
  stop scheduling. -/
def compStep (expectedCount : ℕ) (s : CompState) : CompInput → CompState
  | .push m ok =>
      if ok then { s with modelDone := s.modelDone ++ [m] } else s
  | .pollFail => { s with nextDelay := some 2000 }
  | .pollOk rs =>
      let seen2 := (processResults s.seen rs).1
      let fwd2 := s.forwarded ++ (processResults s.seen rs).2
      if seen2.length < expectedCount then
        { s with seen := seen2, forwarded := fwd2, nextDelay := some 1500 }
      else
        { s with seen := seen2, forwarded := fwd2, isComparing := false,
                 completeToasts := s.completeToasts + 1, nextDelay := none }

/-- Running an interleaving of push frames and poll outcomes.  Push
frames are always processed (the channel is independent of the loop);
poll outcomes are consumed only while the loop still has a scheduled
fetch. -/
def compRun (expectedCount : ℕ) (s : CompState) : List CompInput → CompState
  | [] => s
  | .push m ok :: rest => compRun expectedCount (compStep expectedCount s (.push m ok)) rest
  | .pollFail :: rest =>
      if s.nextDelay = none then compRun expectedCount s rest
      else compRun expectedCount (compStep expectedCount s .pollFail) rest
  | .pollOk rs :: rest =>
      if s.nextDelay = none then compRun expectedCount s rest
      else compRun expectedCount (compStep expectedCount s (.pollOk rs)) rest

/-- The comparison poll state right after `pollComparison` starts: empty
seen set and the initial `setTimeout(poll, 2000)`. -/
def initComp : CompState :=
  { seen := [], forwarded := [], modelDone := [], completeToasts := 0,
    isComparing := true, nextDelay := some 2000 }

/-- The comparison poll state after `n` consecutive fetch failures. -/
def iterateFailComp (expectedCount : ℕ) : ℕ → CompState
  | 0 => initComp
  | n + 1 => compStep expectedCount (iterateFailComp expectedCount n) .pollFail

/-- The state of the WebSocket channel manager in `app()`: the keepalive
interval (`_pingInterval`), the pending reconnect timer
(`wsReconnectTimer`), and whether `ws.close()` has been requested. -/
structure WSManagerState where
  pingTimer : Option ℕ
  reconnectTimer : Option ℕ
  closeRequested : Bool
  deriving DecidableEq

/-- `ws.onopen` (app.js lines 72-80): arm the 30-second keepalive
interval. -/
def wsOnOpen (s : WSManagerState) : WSManagerState :=
  { s with pingTimer := some 30000 }

/-- `ws.onclose` (app.js lines 89-93): clear the keepalive interval and
schedule one reconnect after 3000 ms. -/
def wsOnClose (s : WSManagerState) : WSManagerState :=
  { s with pingTimer := none, reconnectTimer := some 3000 }

/-- `ws.onerror` (app.js lines 95-97): request `ws.close()`; the close
event then runs `wsOnClose`.  The error handler itself schedules
nothing. -/
def wsOnError (s : WSManagerState) : WSManagerState :=
  { s with closeRequested := true }

/-- Tearing down the app component.  `app()` registers no unload or
destroy handler for the WebSocket: nothing in app.js ever calls
`clearTimeout(wsReconnectTimer)`, and `_pingInterval` is cleared only by
`onclose`.  Discarding the component therefore performs no timer
cleanup at all. -/
def appTeardown (s : WSManagerState) : WSManagerState := s

/-- The deduplication invariant of one comparison job: the forwarded
`comparison-result` events carry pairwise distinct model ids, and the
`seen` set holds exactly the ids already forwarded. -/
def compInv (s : CompState) : Prop :=
  (s.forwarded.map ForwardedResult.modelId).Nodup ∧
  ∀ id, id ∈ s.seen ↔ id ∈ s.forwarded.map ForwardedResult.modelId

/-- Sample poll result for model A. -/
def resA : CompResult :=
  { model_id := "A", image_id := some "imgA", duration_seconds := 2,
    success := true, error := none }

/-- Sample poll result for model B. -/
def resB : CompResult :=
  { model_id := "B", image_id := some "imgB", duration_seconds := 3,
    success := true, error := none }

/-- Sample poll result for model C. -/
def resC : CompResult :=
  { model_id := "C", image_id := some "imgC", duration_seconds := 5,
    success := true, error := none }

/-- The interleaving of the C1 scenario up to (and including) the
duplicate report of A: accumulating poll snapshots deliver B, then A,
then A again, with a push frame for A interleaved. -/
def dedupTraceBeforeC : List CompInput :=
  [.pollOk [resB], .push "A" true, .pollOk [resB, resA], .pollOk [resB, resA]]

/-- The full C1 scenario: after the duplicate of A, a snapshot delivers
the third unique result C; one further snapshot arrives after the loop
has stopped. -/
def dedupTrace : List CompInput :=
  dedupTraceBeforeC ++ [.pollOk [resB, resA, resC], .pollOk [resB, resA, resC]]

end App

/-! ## Helper lemmas -/

open ProgressTracker BatchPanel App

/-- The defaulted divisor `x || 1` is always positive. -/
theorem jsOrNat_one_pos (v : Option ℕ) : 0 < jsOrNat v 1 := by
  cases v with
  | none => decide
  | some n =>
      cases n with
      | zero => decide
      | succ m => exact Nat.succ_pos m

/-- `x || 1` is the identity on positive numbers. -/
theorem jsOrNat_some_pos {T : ℕ} (hT : 0 < T) : jsOrNat (some T) 1 = T := by
  cases T with
  | zero => exact absurd hT (by decide)
  | succ m => rfl

/-- `Math.round` is monotone. -/
theorem jsRound_mono {a b : ℚ} (h : a ≤ b) : jsRound a ≤ jsRound b :=
  Int.floor_mono (add_le_add_right h _)

/-- The percent computed by the tile branch of the reducer. -/
theorem tile_percent_eq (now : ℕ) (s : TrackerState) (td tt pn tp : Option ℕ) :
    (handleWSEvent now s (.tile_progress td tt pn tp)).progressPercent
      = jsRound ((jsOrNat td 0 : ℚ) / (jsOrNat tt 1 : ℚ) * 100) := rfl

/-- The tile branch of the reducer keeps the start time. -/
theorem tile_startTime_eq (now : ℕ) (s : TrackerState) (td tt pn tp : Option ℕ) :
    (handleWSEvent now s (.tile_progress td tt pn tp)).startTime = s.startTime := rfl

/-- Below the 2-second threshold, or with no finished tile, the tile
label carries no ETA suffix. -/
theorem tile_label_no_eta (now : ℕ) (s : TrackerState) (td tt pn tp : Option ℕ)
    (h : ((now : ℚ) - (s.startTime : ℚ)) / 1000 ≤ 2 ∨ jsOrNat td 0 = 0) :
    (handleWSEvent now s (.tile_progress td tt pn tp)).progressLabel
      = tileBaseLabel (jsOrNat td 0) (jsOrNat tt 1) (jsOrNat pn 1) (jsOrNat tp 1) := by
  have hc : ¬(0 < jsOrNat td 0 ∧ 2 < ((now : ℚ) - (s.startTime : ℚ)) / 1000) := by
    rintro ⟨hpos, hgt⟩
    rcases h with h2 | h0
    · exact absurd hgt (not_lt.mpr h2)
    · rw [h0] at hpos
      exact absurd hpos (by decide)
  show (if 0 < jsOrNat td 0 ∧ 2 < ((now : ℚ) - (s.startTime : ℚ)) / 1000 then
      tileBaseLabel (jsOrNat td 0) (jsOrNat tt 1) (jsOrNat pn 1) (jsOrNat tp 1)
        ++ " — ~"
        ++ toString (tileEta (jsOrNat td 0) (jsOrNat tt 1) (((now : ℚ) - (s.startTime : ℚ)) / 1000))
        ++ "s remaining"
    else tileBaseLabel (jsOrNat td 0) (jsOrNat tt 1) (jsOrNat pn 1) (jsOrNat tp 1)) = _
  rw [if_neg hc]

/-- Past the 2-second threshold with at least one finished tile, the
tile label carries the ETA suffix. -/
theorem tile_label_eta (now : ℕ) (s : TrackerState) (td tt pn tp : Option ℕ)
    (h1 : 2 < ((now : ℚ) - (s.startTime : ℚ)) / 1000) (h2 : 0 < jsOrNat td 0) :
    (handleWSEvent now s (.tile_progress td tt pn tp)).progressLabel
      = tileBaseLabel (jsOrNat td 0) (jsOrNat tt 1) (jsOrNat pn 1) (jsOrNat tp 1)
        ++ " — ~"
        ++ toString (tileEta (jsOrNat td 0) (jsOrNat tt 1) (((now : ℚ) - (s.startTime : ℚ)) / 1000))
        ++ "s remaining" := by
  show (if 0 < jsOrNat td 0 ∧ 2 < ((now : ℚ) - (s.startTime : ℚ)) / 1000 then
      tileBaseLabel (jsOrNat td 0) (jsOrNat tt 1) (jsOrNat pn 1) (jsOrNat tp 1)
        ++ " — ~"
        ++ toString (tileEta (jsOrNat td 0) (jsOrNat tt 1) (((now : ℚ) - (s.startTime : ℚ)) / 1000))
        ++ "s remaining"
    else tileBaseLabel (jsOrNat td 0) (jsOrNat tt 1) (jsOrNat pn 1) (jsOrNat tp 1)) = _
  rw [if_pos ⟨h2, h1⟩]

/-- The snapshot walk of `pollComparison`: it extends the seen set, the
newly forwarded ids are pairwise distinct, none of them was already
seen, and the new seen set is exactly the old one plus the newly
forwarded ids. -/
theorem processResults_spec (rs : List CompResult) : ∀ seen : List String,
    (∀ x, x ∈ seen → x ∈ (processResults seen rs).1) ∧
    ((processResults seen rs).2.map ForwardedResult.modelId).Nodup ∧
    (∀ id, id ∈ (processResults seen rs).2.map ForwardedResult.modelId → id ∉ seen) ∧
    (∀ id, id ∈ (processResults seen rs).1 ↔
      id ∈ seen ∨ id ∈ (processResults seen rs).2.map ForwardedResult.modelId) := by
  induction rs with
  | nil =>
      intro seen
      simp [processResults]
  | cons r rest ih =>
      intro seen
      by_cases h : r.model_id ∈ seen
      · obtain ⟨ih1, ih2, ih3, ih4⟩ := ih seen
        simp only [processResults, if_pos h]
        exact ⟨ih1, ih2, ih3, ih4⟩
      · obtain ⟨ih1, ih2, ih3, ih4⟩ := ih (r.model_id :: seen)
        simp only [processResults, if_neg h, List.map_cons]
        have hmk : (mkForwarded r).modelId = r.model_id := rfl
        refine ⟨?_, ?_, ?_, ?_⟩
        · intro x hx
          exact ih1 x (List.mem_cons_of_mem _ hx)
        · refine List.nodup_cons.mpr ⟨?_, ih2⟩
          rw [hmk]
          intro hc
          exact (ih3 _ hc) (List.mem_cons_self _ _)
        · intro id hid
          rcases List.mem_cons.mp hid with hEq | hMem
          · rw [hmk] at hEq
            rw [hEq]
            exact h
          · intro hs
            exact (ih3 _ hMem) (List.mem_cons_of_mem _ hs)
        · intro id
          rw [hmk, ih4 id]
          constructor
          · rintro (hc | hp)
            · rcases List.mem_cons.mp hc with hEq | hs
              · exact Or.inr (List.mem_cons.mpr (Or.inl hEq))
              · exact Or.inl hs
            · exact Or.inr (List.mem_cons_of_mem _ hp)
          · rintro (hs | hc)
            · exact Or.inl (List.mem_cons_of_mem _ hs)
            · rcases List.mem_cons.mp hc with hEq | hp
              · exact Or.inl (List.mem_cons.mpr (Or.inl hEq))
              · exact Or.inr hp

/-- One transition of the comparison job preserves the deduplication
invariant. -/
theorem compStep_inv (k : ℕ) (s : CompState) (i : CompInput) (h : compInv s) :
    compInv (compStep k s i) := by
  obtain ⟨hnd, hiff⟩ := h
  cases i with
  | push m ok =>
      cases ok
      · exact ⟨hnd, hiff⟩
      · exact ⟨hnd, hiff⟩
  | pollFail => exact ⟨hnd, hiff⟩
  | pollOk rs =>
      obtain ⟨h1, h2, h3, h4⟩ := processResults_spec rs s.seen
      have hnd2 : ((s.forwarded ++ (processResults s.seen rs).2).map
          ForwardedResult.modelId).Nodup := by
        rw [List.map_append]
        refine List.nodup_append.mpr ⟨hnd, h2, ?_⟩
        intro x hx hx2
        exact h3 x hx2 ((hiff x).mpr hx)
      have hiff2 : ∀ id, id ∈ (processResults s.seen rs).1 ↔
          id ∈ (s.forwarded ++ (processResults s.seen rs).2).map ForwardedResult.modelId := by
        intro id
        rw [List.map_append, List.mem_append, h4 id]
        constructor
        · rintro (hs | hp)
          · exact Or.inl ((hiff id).mp hs)
          · exact Or.inr hp
        · rintro (hs | hp)
          · exact Or.inl ((hiff id).mpr hs)
          · exact Or.inr hp
      simp only [compStep]
      split
      · exact ⟨hnd2, hiff2⟩
      · exact ⟨hnd2, hiff2⟩

/-- Running any interleaving preserves the deduplication invariant. -/
theorem compRun_inv (k : ℕ) : ∀ (inputs : List CompInput) (s : CompState),
    compInv s → compInv (compRun k s inputs) := by
  intro inputs
  induction inputs with
  | nil => intro s h; exact h
  | cons i rest ih =>
      intro s h
      cases i with
      | push m ok => exact ih _ (compStep_inv k s _ h)
      | pollFail =>
          by_cases hd : s.nextDelay = none
          · simp only [compRun, if_pos hd]
            exact ih _ h
          · simp only [compRun, if_neg hd]
            exact ih _ (compStep_inv k s _ h)
      | pollOk rs =>
          by_cases hd : s.nextDelay = none
          · simp only [compRun, if_pos hd]
            exact ih _ h
          · simp only [compRun, if_neg hd]
            exact ih _ (compStep_inv k s _ h)

/-- A stopped poll loop issues no further fetches and never changes its
state again. -/
theorem pollJobRun_stopped (s : BatchPollState) (h : s.nextDelay = none) :
    ∀ outcomes, pollJobRun s outcomes = (0, [], s) := by
  intro outcomes
  cases outcomes with
  | nil => rfl
  | cons o rest => simp only [pollJobRun, h]

/-! ## Claim theorems -/

/-- Claim C1: for every interleaving of push frames and poll snapshots
of one comparison job, the consumer receives the `comparison-result`
notification for a sub-unit id exactly once if the id was ever processed
(it is then in the seen set) and never twice; in the concrete scenario
with `expectedCount = 3` and results arriving B, A, A(duplicate), C, the
consumer observes exactly the three results B, A, C, and the job is
marked overall-complete exactly once, immediately after the third unique
result. -/
theorem comparison_dedup_exactly_once (k : ℕ) (inputs : List CompInput) (id : String) :
    (((compRun k initComp inputs).forwarded.map ForwardedResult.modelId).count id
      = if id ∈ (compRun k initComp inputs).seen then 1 else 0) ∧
    ((compRun 3 initComp dedupTrace).forwarded.map ForwardedResult.modelId = ["B", "A", "C"] ∧
     (compRun 3 initComp dedupTrace).completeToasts = 1 ∧
     (compRun 3 initComp dedupTrace).isComparing = false ∧
     (compRun 3 initComp dedupTrace).nextDelay = none ∧
     (compRun 3 initComp dedupTraceBeforeC).completeToasts = 0 ∧
     (compRun 3 initComp dedupTraceBeforeC).isComparing = true) := by
  constructor
  · have hinv : compInv (compRun k initComp inputs) := by
      refine compRun_inv k inputs initComp ⟨?_, ?_⟩
      · simp [initComp]
      · intro id2
        simp [initComp]
    obtain ⟨hnd, hiff⟩ := hinv
    by_cases hm : id ∈ (compRun k initComp inputs).seen
    · rw [if_pos hm]
      exact List.count_eq_one_of_mem hnd ((hiff id).mp hm)
    · rw [if_neg hm]
      exact List.count_eq_zero.mpr (fun hc => hm ((hiff id).mpr hc))
  · decide

/-- Claim C2, counterexample: the WS reducer has no terminal-state
guard.  After `image_complete` the derived status is `completed`, yet a
later `tile_progress` event moves the very same tracker state back to
`running`, violating the claimed monotonicity for this event sequence. -/
theorem tracker_status_regresses :
    trackerStatus (runEvents (initState 0) [(0, .image_complete)]) = .completed ∧
    trackerStatus (runEvents (initState 0)
      [(0, .image_complete), (0, .tile_progress (some 1) (some 10) none none)]) = .running := by
  constructor
  · rfl
  · have hlabel : (runEvents (initState 0)
        [(0, .image_complete), (0, .tile_progress (some 1) (some 10) none none)]).progressLabel
        = tileBaseLabel 1 10 1 1 := by
      show (handleWSEvent 0 (handleWSEvent 0 (initState 0) .image_complete)
        (.tile_progress (some 1) (some 10) none none)).progressLabel = _
      rw [tile_label_no_eta]
      · rfl
      · left
        rw [show (handleWSEvent 0 (initState 0) .image_complete).startTime = 0 from rfl]
        norm_num
    simp only [trackerStatus, hlabel]
    decide

/-- Claim C2 (amended): the poll path is monotonic — once `pollJob`
processes a snapshot with terminal status (`completed` or `failed`), the
loop stops, the job is no longer running, and no later fetch outcome
ever changes the state again.  (The WS reducer `handleWSEvent` carries
no status guard, so only the poll path enforces terminality; see the
counterexample.) -/
theorem pollJob_terminal_absorbing (s : BatchPollState) (d : ℕ) (snap : JobSnapshot)
    (rest : List FetchOutcome) (hd : s.nextDelay = some d)
    (hterm : snap.status = "completed" ∨ snap.status = "failed") :
    (pollJobRun s (.ok snap :: rest)).2.2 = pollJobStep s (.ok snap) ∧
    (pollJobStep s (.ok snap)).batchRunning = false ∧
    (pollJobStep s (.ok snap)).nextDelay = none := by
  have hstep : (pollJobStep s (.ok snap)).batchRunning = false ∧
      (pollJobStep s (.ok snap)).nextDelay = none := by
    rcases hterm with h | h
    · simp only [pollJobStep]
      rw [if_pos h]
      exact ⟨rfl, rfl⟩
    · simp only [pollJobStep]
      rw [if_neg (by rw [h]; decide), if_pos h]
      exact ⟨rfl, rfl⟩
  refine ⟨?_, hstep.1, hstep.2⟩
  simp only [pollJobRun, hd]
  rw [pollJobRun_stopped _ hstep.2]

/-- Witness for the amended C2 theorem at a concrete terminal snapshot
followed by two further outcomes. -/
theorem pollJob_terminal_absorbing_witness :
    (initBatchPoll.nextDelay = some 1000 ∧
      (("failed" : String) = "completed" ∨ ("failed" : String) = "failed")) ∧
    ((pollJobRun initBatchPoll
        [.ok ⟨"failed", [], some "boom"⟩, .ok ⟨"running", [], none⟩, .fail]).2.2
       = pollJobStep initBatchPoll (.ok ⟨"failed", [], some "boom"⟩) ∧
     (pollJobStep initBatchPoll (.ok ⟨"failed", [], some "boom"⟩)).batchRunning = false ∧
     (pollJobStep initBatchPoll (.ok ⟨"failed", [], some "boom"⟩)).nextDelay = none) :=
  ⟨⟨rfl, Or.inr rfl⟩,
   pollJob_terminal_absorbing initBatchPoll 1000 ⟨"failed", [], some "boom"⟩
     [.ok ⟨"running", [], none⟩, .fail] rfl (Or.inr rfl)⟩

/-- Claim C3: for every tile_progress event, the ETA suffix is absent
from the label whenever the elapsed time since the job start is at most
2 seconds or no tile is done; once the elapsed time exceeds 2 seconds
and 0 < done < total, the ETA suffix is present and the projected
remaining seconds — (total - done) divided by the rate done/elapsed,
rounded up — are positive. -/
theorem tile_eta_threshold (now : ℕ) (s : TrackerState) (td tt pn tp : Option ℕ)
    (done total : ℕ) (elapsed : ℚ)
    (hdone : done = jsOrNat td 0) (htotal : total = jsOrNat tt 1)
    (helapsed : elapsed = ((now : ℚ) - (s.startTime : ℚ)) / 1000) :
    (elapsed ≤ 2 ∨ done = 0 →
      (handleWSEvent now s (.tile_progress td tt pn tp)).progressLabel
        = tileBaseLabel done total (jsOrNat pn 1) (jsOrNat tp 1)) ∧
    (2 < elapsed → 0 < done → done < total →
      (handleWSEvent now s (.tile_progress td tt pn tp)).progressLabel
        = tileBaseLabel done total (jsOrNat pn 1) (jsOrNat tp 1)
          ++ " — ~" ++ toString (tileEta done total elapsed) ++ "s remaining" ∧
      0 < tileEta done total elapsed) := by
  subst hdone
  subst htotal
  subst helapsed
  constructor
  · intro h
    exact tile_label_no_eta now s td tt pn tp h
  · intro h1 h2 h3
    refine ⟨tile_label_eta now s td tt pn tp h1 h2, ?_⟩
    have hel : (0 : ℚ) < ((now : ℚ) - (s.startTime : ℚ)) / 1000 :=
      lt_trans (by norm_num) h1
    have hd : (0 : ℚ) < (jsOrNat td 0 : ℚ) := by exact_mod_cast h2
    have ht : (jsOrNat td 0 : ℚ) < (jsOrNat tt 1 : ℚ) := by exact_mod_cast h3
    have hq : (0 : ℚ) < ((jsOrNat tt 1 : ℚ) - (jsOrNat td 0 : ℚ))
        / ((jsOrNat td 0 : ℚ) / (((now : ℚ) - (s.startTime : ℚ)) / 1000)) :=
      div_pos (by linarith) (div_pos hd hel)
    exact Int.ceil_pos.mpr hq

/-- Witness for C3: with 1 of 10 tiles done, the ETA is hidden at 1
second of elapsed time and shown (and positive) at 4 seconds. -/
theorem tile_eta_threshold_witness :
    ((1 : ℚ) ≤ 2 ∧ 2 < (4 : ℚ) ∧ 0 < (1 : ℕ) ∧ (1 : ℕ) < 10) ∧
    (handleWSEvent 1000 (initState 0)
        (.tile_progress (some 1) (some 10) none none)).progressLabel
      = tileBaseLabel 1 10 (jsOrNat none 1) (jsOrNat none 1) ∧
    ((handleWSEvent 4000 (initState 0)
        (.tile_progress (some 1) (some 10) none none)).progressLabel
      = tileBaseLabel 1 10 (jsOrNat none 1) (jsOrNat none 1)
        ++ " — ~" ++ toString (tileEta 1 10 4) ++ "s remaining" ∧
     0 < tileEta 1 10 4) := by
  refine ⟨by norm_num, ?_, ?_⟩
  · exact (tile_eta_threshold 1000 (initState 0) (some 1) (some 10) none none 1 10 1
      rfl rfl (by rw [show (initState 0).startTime = 0 from rfl]; norm_num)).1
      (Or.inl (by norm_num))
  · exact (tile_eta_threshold 4000 (initState 0) (some 1) (some 10) none none 1 10 4
      rfl rfl (by rw [show (initState 0).startTime = 0 from rfl]; norm_num)).2
      (by norm_num) (by decide) (by decide)

/-- Claim C4, counterexample: the percent displayed for a tile-progress
sequence with fixed total 10 is not monotone for every sequence — if
`done` decreases (5 tiles, then 1 tile), the percent falls from 50
to 10. -/
theorem tile_percent_not_monotonic :
    (runEvents (initState 0)
       [(0, .tile_progress (some 5) (some 10) none none)]).progressPercent = 50 ∧
    (runEvents (initState 0)
       [(0, .tile_progress (some 5) (some 10) none none),
        (0, .tile_progress (some 1) (some 10) none none)]).progressPercent = 10 ∧
    ¬ ((runEvents (initState 0)
         [(0, .tile_progress (some 5) (some 10) none none)]).progressPercent
       ≤ (runEvents (initState 0)
           [(0, .tile_progress (some 5) (some 10) none none),
            (0, .tile_progress (some 1) (some 10) none none)]).progressPercent) := by
  have e1 : (runEvents (initState 0)
      [(0, .tile_progress (some 5) (some 10) none none)]).progressPercent = 50 := by
    show (handleWSEvent 0 (initState 0)
      (.tile_progress (some 5) (some 10) none none)).progressPercent = 50
    rw [tile_percent_eq, show jsOrNat (some 5) 0 = 5 from rfl,
      show jsOrNat (some 10) 1 = 10 from rfl]
    norm_num [jsRound]
  have e2 : (runEvents (initState 0)
      [(0, .tile_progress (some 5) (some 10) none none),
       (0, .tile_progress (some 1) (some 10) none none)]).progressPercent = 10 := by
    show (handleWSEvent 0 (handleWSEvent 0 (initState 0)
        (.tile_progress (some 5) (some 10) none none))
      (.tile_progress (some 1) (some 10) none none)).progressPercent = 10
    rw [tile_percent_eq, show jsOrNat (some 1) 0 = 1 from rfl,
      show jsOrNat (some 10) 1 = 10 from rfl]
    norm_num [jsRound]
  refine ⟨e1, e2, ?_⟩
  rw [e1, e2]
  decide

/-- Claim C4 (amended): at every step the displayed percent equals
round(done / T * 100); the percent is monotonically non-decreasing
whenever the done counts are non-decreasing (nothing in the code orders
them otherwise — see the counterexample); and when total_passes > 1 the
label carries the pass prefix "Pass p/P — Tiles: done/total". -/
theorem tile_percent_round_mono (now1 now2 : ℕ) (s1 s2 : TrackerState)
    (td1 td2 pn tp : Option ℕ) (T d1 d2 : ℕ)
    (hT : 0 < T) (h1 : d1 = jsOrNat td1 0) (h2 : d2 = jsOrNat td2 0) (hle : d1 ≤ d2) :
    (handleWSEvent now1 s1 (.tile_progress td1 (some T) pn tp)).progressPercent
      = jsRound ((d1 : ℚ) / (T : ℚ) * 100) ∧
    (handleWSEvent now2 s2 (.tile_progress td2 (some T) pn tp)).progressPercent
      = jsRound ((d2 : ℚ) / (T : ℚ) * 100) ∧
    (handleWSEvent now1 s1 (.tile_progress td1 (some T) pn tp)).progressPercent
      ≤ (handleWSEvent now2 s2 (.tile_progress td2 (some T) pn tp)).progressPercent ∧
    (1 < jsOrNat tp 1 → ∃ r : String,
      (handleWSEvent now1 s1 (.tile_progress td1 (some T) pn tp)).progressLabel
        = "Pass " ++ toString (jsOrNat pn 1) ++ "/" ++ toString (jsOrNat tp 1)
          ++ " — " ++ ("Tiles: " ++ toString d1 ++ "/" ++ toString T) ++ r) := by
  have hTT : jsOrNat (some T) 1 = T := jsOrNat_some_pos hT
  have e1 : (handleWSEvent now1 s1 (.tile_progress td1 (some T) pn tp)).progressPercent
      = jsRound ((d1 : ℚ) / (T : ℚ) * 100) := by
    rw [tile_percent_eq, hTT, ← h1]
  have e2 : (handleWSEvent now2 s2 (.tile_progress td2 (some T) pn tp)).progressPercent
      = jsRound ((d2 : ℚ) / (T : ℚ) * 100) := by
    rw [tile_percent_eq, hTT, ← h2]
  have hmono : jsRound ((d1 : ℚ) / (T : ℚ) * 100) ≤ jsRound ((d2 : ℚ) / (T : ℚ) * 100) := by
    apply jsRound_mono
    have hTpos : (0 : ℚ) < (T : ℚ) := by exact_mod_cast hT
    have hdle : (d1 : ℚ) ≤ (d2 : ℚ) := by exact_mod_cast hle
    gcongr
  refine ⟨e1, e2, by rw [e1, e2]; exact hmono, ?_⟩
  intro hp
  have hbase : tileBaseLabel (jsOrNat td1 0) (jsOrNat (some T) 1) (jsOrNat pn 1) (jsOrNat tp 1)
      = "Pass " ++ toString (jsOrNat pn 1) ++ "/" ++ toString (jsOrNat tp 1)
        ++ " — " ++ ("Tiles: " ++ toString (jsOrNat td1 0) ++ "/"
            ++ toString (jsOrNat (some T) 1)) := by
    show (if 1 < jsOrNat tp 1 then
        "Pass " ++ toString (jsOrNat pn 1) ++ "/" ++ toString (jsOrNat tp 1) ++ " — "
          ++ ("Tiles: " ++ toString (jsOrNat td1 0) ++ "/" ++ toString (jsOrNat (some T) 1))
      else "Tiles: " ++ toString (jsOrNat td1 0) ++ "/" ++ toString (jsOrNat (some T) 1)) = _
    rw [if_pos hp]
  by_cases hc : 0 < jsOrNat td1 0 ∧ 2 < ((now1 : ℚ) - (s1.startTime : ℚ)) / 1000
  · refine ⟨" — ~" ++ toString (tileEta d1 T (((now1 : ℚ) - (s1.startTime : ℚ)) / 1000))
        ++ "s remaining", ?_⟩
    rw [tile_label_eta now1 s1 td1 (some T) pn tp hc.2 hc.1, hbase, hTT, ← h1]
    simp only [String.append_assoc]
  · refine ⟨"", ?_⟩
    have hor : ((now1 : ℚ) - (s1.startTime : ℚ)) / 1000 ≤ 2 ∨ jsOrNat td1 0 = 0 := by
      rcases not_and_or.mp hc with h | h
      · exact Or.inr (Nat.eq_zero_of_not_pos h)
      · exact Or.inl (not_lt.mp h)
    rw [tile_label_no_eta now1 s1 td1 (some T) pn tp hor, hbase, hTT, ← h1,
      String.append_empty]

/-- Witness for the amended C4 theorem: done counts 2 then 5 out of 10
tiles, with pass 2 of 3. -/
theorem tile_percent_round_mono_witness :
    ((0 : ℕ) < 10 ∧ (2 : ℕ) = jsOrNat (some 2) 0 ∧ (5 : ℕ) = jsOrNat (some 5) 0 ∧
      (2 : ℕ) ≤ 5) ∧
    ((handleWSEvent 0 (initState 0)
        (.tile_progress (some 2) (some 10) (some 2) (some 3))).progressPercent
      = jsRound (((2 : ℕ) : ℚ) / ((10 : ℕ) : ℚ) * 100) ∧
     (handleWSEvent 0 (initState 0)
        (.tile_progress (some 5) (some 10) (some 2) (some 3))).progressPercent
      = jsRound (((5 : ℕ) : ℚ) / ((10 : ℕ) : ℚ) * 100) ∧
     (handleWSEvent 0 (initState 0)
        (.tile_progress (some 2) (some 10) (some 2) (some 3))).progressPercent
      ≤ (handleWSEvent 0 (initState 0)
          (.tile_progress (some 5) (some 10) (some 2) (some 3))).progressPercent ∧
     (1 < jsOrNat (some 3) 1 → ∃ r : String,
       (handleWSEvent 0 (initState 0)
           (.tile_progress (some 2) (some 10) (some 2) (some 3))).progressLabel
         = "Pass " ++ toString (jsOrNat (some 2) 1) ++ "/" ++ toString (jsOrNat (some 3) 1)
           ++ " — " ++ ("Tiles: " ++ toString (2 : ℕ) ++ "/" ++ toString (10 : ℕ)) ++ r)) :=
  ⟨⟨by decide, rfl, rfl, by decide⟩,
   tile_percent_round_mono 0 0 (initState 0) (initState 0) (some 2) (some 5) (some 2) (some 3)
     10 2 5 (by decide) rfl rfl (by decide)⟩

/-- Claim C5: after a fetch failure each poll loop reschedules after an
interval strictly longer than its steady-state interval and at most
double it (batch loop: 3000 ms vs 2000 ms; comparison loop: 2000 ms vs
1500 ms), and a failure never stops the loop; concretely, for a fetch
that fails twice and then returns a terminal snapshot, exactly 3 fetches
are issued with delays 1000, 3000, 3000 ms — the second after a strictly
longer delay than the first — and the loop stops after the third. -/
theorem poll_backoff_policy (s : BatchPollState) (cs : CompState) (k : ℕ)
    (snap : JobSnapshot) (rs : List CompResult)
    (hs1 : snap.status ≠ "completed") (hs2 : snap.status ≠ "failed")
    (hlt : (processResults cs.seen rs).1.length < k) :
    ((pollJobStep s .fail).nextDelay = some 3000 ∧
     (pollJobStep s (.ok snap)).nextDelay = some 2000 ∧
     2000 < 3000 ∧ 3000 ≤ 2 * 2000) ∧
    ((compStep k cs .pollFail).nextDelay = some 2000 ∧
     (compStep k cs (.pollOk rs)).nextDelay = some 1500 ∧
     1500 < 2000 ∧ 2000 ≤ 2 * 1500) ∧
    ((pollJobRun initBatchPoll [.fail, .fail, .ok ⟨"completed", [], none⟩]).1 = 3 ∧
     (pollJobRun initBatchPoll [.fail, .fail, .ok ⟨"completed", [], none⟩]).2.1
       = [1000, 3000, 3000] ∧
     1000 < 3000 ∧
     (pollJobRun initBatchPoll [.fail, .fail, .ok ⟨"completed", [], none⟩]).2.2.nextDelay
       = none ∧
     (pollJobRun initBatchPoll
       [.fail, .fail, .ok ⟨"completed", [], none⟩]).2.2.batchRunning = false) := by
  refine ⟨⟨rfl, ?_, by decide, by decide⟩, ⟨rfl, ?_, by decide, by decide⟩, by decide⟩
  · simp only [pollJobStep]
    rw [if_neg hs1, if_neg hs2]
  · simp only [compStep]
    rw [if_pos hlt]

/-- Witness for C5 at a running snapshot and an empty comparison
snapshot with one expected sub-unit. -/
theorem poll_backoff_policy_witness :
    (("running" : String) ≠ "completed" ∧ ("running" : String) ≠ "failed" ∧
      (processResults initComp.seen []).1.length < 1) ∧
    (((pollJobStep initBatchPoll .fail).nextDelay = some 3000 ∧
      (pollJobStep initBatchPoll (.ok ⟨"running", [], none⟩)).nextDelay = some 2000 ∧
      2000 < 3000 ∧ 3000 ≤ 2 * 2000) ∧
     ((compStep 1 initComp .pollFail).nextDelay = some 2000 ∧
      (compStep 1 initComp (.pollOk [])).nextDelay = some 1500 ∧
      1500 < 2000 ∧ 2000 ≤ 2 * 1500) ∧
     ((pollJobRun initBatchPoll [.fail, .fail, .ok ⟨"completed", [], none⟩]).1 = 3 ∧
      (pollJobRun initBatchPoll [.fail, .fail, .ok ⟨"completed", [], none⟩]).2.1
        = [1000, 3000, 3000] ∧
      1000 < 3000 ∧
      (pollJobRun initBatchPoll [.fail, .fail, .ok ⟨"completed", [], none⟩]).2.2.nextDelay
        = none ∧
      (pollJobRun initBatchPoll
        [.fail, .fail, .ok ⟨"completed", [], none⟩]).2.2.batchRunning = false)) :=
  ⟨⟨by decide, by decide, by decide⟩,
   poll_backoff_policy initBatchPoll initComp 1 ⟨"running", [], none⟩ []
     (by decide) (by decide) (by decide)⟩

/-- Consecutive fetch failures leave the batch poll loop running with an
empty status, no toasts, and a retry always scheduled. -/
theorem iterateFailBatch_spec (n : ℕ) :
    (iterateFailBatch n).batchRunning = true ∧ (iterateFailBatch n).batchStatus = "" ∧
    (iterateFailBatch n).toasts = [] ∧ (iterateFailBatch n).nextDelay ≠ none := by
  induction n with
  | zero => exact ⟨rfl, rfl, rfl, Option.some_ne_none 1000⟩
  | succ n ih =>
      obtain ⟨h1, h2, h3, h4⟩ := ih
      exact ⟨h1, h2, h3, Option.some_ne_none 3000⟩

/-- Consecutive fetch failures leave the comparison poll loop running
with nothing forwarded, no completion toast, and a retry always
scheduled. -/
theorem iterateFailComp_spec (k n : ℕ) :
    (iterateFailComp k n).isComparing = true ∧ (iterateFailComp k n).completeToasts = 0 ∧
    (iterateFailComp k n).forwarded = [] ∧ (iterateFailComp k n).nextDelay ≠ none := by
  induction n with
  | zero => exact ⟨rfl, rfl, rfl, Option.some_ne_none 2000⟩
  | succ n ih =>
      obtain ⟨h1, h2, h3, h4⟩ := ih
      exact ⟨h1, h2, h3, Option.some_ne_none 2000⟩

/-- Claim C6 (amended): a fetch failure during polling is invisible to
the user and always recovered by a retry — after any number of
consecutive failures the batch loop is still running with empty status
and no toast, the comparison loop is still comparing with nothing
forwarded, and in both a next poll is scheduled.  The code bounds
nothing: no count of consecutive failures ever marks the job failed. -/
theorem poll_failures_always_retried (n k : ℕ) :
    ((iterateFailBatch n).batchRunning = true ∧ (iterateFailBatch n).batchStatus = "" ∧
     (iterateFailBatch n).toasts = [] ∧ (iterateFailBatch n).nextDelay ≠ none) ∧
    ((iterateFailComp k n).isComparing = true ∧ (iterateFailComp k n).completeToasts = 0 ∧
     (iterateFailComp k n).forwarded = [] ∧ (iterateFailComp k n).nextDelay ≠ none) :=
  ⟨iterateFailBatch_spec n, iterateFailComp_spec k n⟩

/-- Claim C6, counterexample: there is no bound of consecutive poll
failures after which the job is marked failed — no number of failures
ever clears `batchRunning` or writes any status message. -/
theorem poll_failures_never_exhaust :
    ¬ ∃ n : ℕ, (iterateFailBatch n).batchRunning = false ∨
      (iterateFailBatch n).batchStatus ≠ "" := by
  rintro ⟨n, h | h⟩
  · have ht := (iterateFailBatch_spec n).1
    rw [ht] at h
    exact absurd h (by decide)
  · exact h (iterateFailBatch_spec n).2.1

/-- Claim C7 (amended): on a channel close the keepalive timer is
cancelled and exactly one reconnect attempt is scheduled after the fixed
3000 ms delay; an error event only requests a close (the reconnect is
scheduled by the resulting close), so no duplicate reconnect arises.
The app has no teardown that cancels timers — see the counterexample. -/
theorem ws_close_cancels_ping_schedules_reconnect (s : WSManagerState) :
    (wsOnClose s).pingTimer = none ∧
    (wsOnClose s).reconnectTimer = some 3000 ∧
    (wsOnError s).closeRequested = true ∧
    (wsOnError s).pingTimer = s.pingTimer ∧
    (wsOnError s).reconnectTimer = s.reconnectTimer :=
  ⟨rfl, rfl, rfl, rfl, rfl⟩

/-- Claim C7, counterexample: app.js installs no teardown that clears
`wsReconnectTimer`, so after tearing down a manager that has just seen a
close, the 3-second reconnect timer is still pending and will fire. -/
theorem ws_teardown_leaves_reconnect_pending :
    (appTeardown (wsOnClose (wsOnOpen ⟨none, none, false⟩))).reconnectTimer = some 3000 :=
  rfl

/-- Claim C8: a completed snapshot with unit counts renders the final
batch status as "Complete: c processed, s skipped, f failed" and stops
the job; with counts 8/1/1 the status is exactly
"Complete: 8 processed, 1 skipped, 1 failed". -/
theorem batch_summary_format (s : BatchPollState) (c sk f : ℕ)
    (rest : List BatchResult) (e : Option String) :
    (pollJobStep s (.ok ⟨"completed", ⟨c, sk, f⟩ :: rest, e⟩)).batchStatus
      = "Complete: " ++ toString c ++ " processed, " ++ toString sk ++ " skipped, "
        ++ toString f ++ " failed" ∧
    (pollJobStep s (.ok ⟨"completed", ⟨c, sk, f⟩ :: rest, e⟩)).batchRunning = false ∧
    (pollJobStep initBatchPoll (.ok ⟨"completed", [⟨8, 1, 1⟩], none⟩)).batchStatus
      = "Complete: 8 processed, 1 skipped, 1 failed" := by
  refine ⟨rfl, rfl, ?_⟩
  decide

/-- Claim C9: the percent computations of the reducer never divide by
zero — a missing or zero tiles_total, batch total, or download total
defaults to 1, so every divisor is positive, and the download percent is
computed through its (always satisfied) total > 0 guard; the reducer is
a total function over all event shapes by construction. -/
theorem reducer_divisors_positive (now : ℕ) (s : TrackerState)
    (td tt pn tp bc bt dd dt : Option ℕ) (cf : Option String) :
    (0 < jsOrNat tt 1 ∧
      (handleWSEvent now s (.tile_progress td tt pn tp)).progressPercent
        = jsRound ((jsOrNat td 0 : ℚ) / (jsOrNat tt 1 : ℚ) * 100)) ∧
    (0 < jsOrNat bt 1 ∧
      (handleWSEvent now s (.batch_progress bc bt cf)).progressPercent
        = jsRound ((jsOrNat bc 0 : ℚ) / (jsOrNat bt 1 : ℚ) * 100)) ∧
    (0 < jsOrNat dt 1 ∧
      (handleWSEvent now s (.download_progress dd dt)).progressPercent
        = jsRound ((jsOrNat dd 0 : ℚ) / (jsOrNat dt 1 : ℚ) * 100)) := by
  refine ⟨⟨jsOrNat_one_pos tt, tile_percent_eq now s td tt pn tp⟩,
    ⟨jsOrNat_one_pos bt, rfl⟩, ⟨jsOrNat_one_pos dt, ?_⟩⟩
  show (if 0 < jsOrNat dt 1 then jsRound ((jsOrNat dd 0 : ℚ) / (jsOrNat dt 1 : ℚ) * 100)
      else 0) = jsRound ((jsOrNat dd 0 : ℚ) / (jsOrNat dt 1 : ℚ) * 100)
  rw [if_pos (jsOrNat_one_pos dt)]

/-- Claim C10: each job submission is a guarded no-op when its inputs
are missing — startUpscale with no uploaded file or no selected model,
startComparison with no uploaded file or an empty model list, and
startBatch with no input directory or no model each return with the
state unchanged and no HTTP request, toast, or other effect. -/
theorem submission_guards_noop (a : AppState) (b : BatchPanelState) :
    (a.uploadedFile = none ∨ a.selectedModel = "" → startUpscale a = (a, [])) ∧
    (a.uploadedFile = none ∨ a.compareModels.length = 0 → startComparison a = (a, [])) ∧
    (b.batchInputDir = "" ∨ b.batchModel = "" → BatchPanel.startBatch b = (b, [])) := by
  refine ⟨fun h => ?_, fun h => ?_, fun h => ?_⟩
  · simp only [startUpscale]
    rw [if_pos h]
  · simp only [startComparison]
    rw [if_pos h]
  · simp only [BatchPanel.startBatch]
    rw [if_pos h]

/-- Witness for C10: concrete states with a missing upload and a missing
input directory. -/
theorem submission_guards_noop_witness :
    ((none : Option String) = none ∧ ("" : String) = "") ∧
    (startUpscale ⟨none, "model-a", false, none, ["model-a"], false, none⟩
       = (⟨none, "model-a", false, none, ["model-a"], false, none⟩, []) ∧
     startComparison ⟨none, "model-a", false, none, ["model-a"], false, none⟩
       = (⟨none, "model-a", false, none, ["model-a"], false, none⟩, []) ∧
     BatchPanel.startBatch ⟨"", "out", "model-a", false, ""⟩
       = (⟨"", "out", "model-a", false, ""⟩, [])) :=
  ⟨⟨rfl, rfl⟩,
   (submission_guards_noop ⟨none, "model-a", false, none, ["model-a"], false, none⟩
      ⟨"", "out", "model-a", false, ""⟩).1 (Or.inl rfl),
   (submission_guards_noop ⟨none, "model-a", false, none, ["model-a"], false, none⟩
      ⟨"", "out", "model-a", false, ""⟩).2.1 (Or.inl rfl),
   (submission_guards_noop ⟨none, "model-a", false, none, ["model-a"], false, none⟩
      ⟨"", "out", "model-a", false, ""⟩).2.2 (Or.inl rfl)⟩
